import Mathlib

/-!
Verification of the Path Transmission Core of the PolarGraph repository
(`src/visualization/polargraph/path_sender.py`), as a shallow embedding.

Modelling conventions:
* Python `int` values become `ℤ`; counters that the code only ever
  increments from zero (`sent_points`, `sent_batches`, `total_batches`)
  become `ℕ`; Python `float` configuration values become `ℚ` (the code
  only compares and clamps them, never relies on rounding).
* Board coordinates in jobs are `ℚ`; the kinematic transform
  `_compute_string_lengths` is over `ℝ` with `Real.sqrt` standing for
  `math.sqrt`.
* HTTP traffic is abstracted into per-iteration environment values
  (telemetry payloads, send outcomes, poll outcomes); the worker loop
  `_run_job` becomes a fuel-indexed state-transition function.
* The mutable fields of `PathSendJob` (`status`, `sent_points`, ...)
  live in `RunState`; the immutable ones stay in `PathSendJob`.
-/

namespace PolarGraph

/-- Configuration of `PathSender` after the clamping in `PathSender.__init__`
(`path_sender.py` lines 108-148). -/
structure SenderConfig where
  batch_size : ℤ
  timeout : ℚ
  status_poll_interval : ℚ
  status_timeout : ℚ
  send_retry_interval : ℚ
  send_retry_timeout : ℚ
  controller_queue_capacity : ℤ
  queue_fill_target : ℤ
  queue_low_watermark : ℤ
  min_chunk_size : ℤ
  max_points_per_request : ℤ
  deriving Repr, DecidableEq

/-- `PathSender.__init__`: clamps every tuning knob, mirroring the source
statement by statement (lines 122-148).  `queue_fill_target` is `Option ℤ`
because the Python parameter defaults to `None`. -/
def mkPathSender (batch_size : ℤ) (timeout status_poll_interval status_timeout
    send_retry_interval send_retry_timeout : ℚ) (controller_queue_capacity : ℤ)
    (queue_fill_target : Option ℤ) (queue_low_watermark min_chunk_size
    max_points_per_request : ℤ) : SenderConfig :=
  let mppr := max 1 max_points_per_request
  let bs := max 1 (min batch_size mppr)
  let spi := max (1/10) status_poll_interval
  let st := max spi status_timeout
  let sri := max (1/2) send_retry_interval
  let srt := max sri send_retry_timeout
  let cap := max 1 controller_queue_capacity
  let default_fill_target := max 1 (cap - 500)
  let qft0 :=
    match queue_fill_target with
    | none => default_fill_target
    | some q => max 1 (min q cap)
  let lw := max 0 queue_low_watermark
  let mcs0 := max 1 min_chunk_size
  let mcs := if mcs0 > mppr then mppr else mcs0
  let qft := if qft0 ≤ lw then min cap (max (lw + mcs) (lw + 1)) else qft0
  { batch_size := bs
    timeout := timeout
    status_poll_interval := spi
    status_timeout := st
    send_retry_interval := sri
    send_retry_timeout := srt
    controller_queue_capacity := cap
    queue_fill_target := qft
    queue_low_watermark := lw
    min_chunk_size := mcs
    max_points_per_request := mppr }

/-- The configuration built with all the documented default arguments
(`batch_size=200`, `timeout=30`, `status_poll_interval=0.5`,
`status_timeout=300`, `send_retry_interval=2`, `send_retry_timeout=120`,
`controller_queue_capacity=3000`, `queue_fill_target=None`,
`queue_low_watermark=200`, `min_chunk_size=200`,
`max_points_per_request=200`). -/
def defaultConfig : SenderConfig :=
  mkPathSender 200 30 (1/2) 300 2 120 3000 none 200 200 200

/-- Parsed `queue` object of the controller telemetry: `size` is the result
of `PathSender._safe_int(queue_info.get("size"))` (hence `Option ℤ`),
`isExecuting` the result of `bool(queue_info.get("isExecuting"))`. -/
structure QueueInfo where
  size : Option ℤ
  isExecuting : Bool
  deriving Repr, DecidableEq

/-- Parsed controller status payload (`path_sender.py` reads the optional
keys `queue`, `status` and `motors`; a `motors` entry is modelled by the
truthiness of its `busy` flag, non-dict entries being skipped). -/
structure Telemetry where
  queue : Option QueueInfo
  status : Option String
  motors : Option (List Bool)
  deriving Repr, DecidableEq

/-- The `motors` part of `PathSender._controller_allows_send`
(lines 651-660): any busy entry forbids the send. -/
def motors_allow (motors : Option (List Bool)) : Bool :=
  match motors with
  | some entries => entries.all (fun busy => !busy)
  | none => true

/-- The `status`-string and `motors` fallback of
`PathSender._controller_allows_send` (lines 643-664), reached when no
integer queue size is available. -/
def status_and_motors_allow (d : Telemetry) : Bool :=
  match d.status with
  | some s =>
    if ["idle", "ready", "stopped"].contains s.toLower then true
    else if ["busy", "running", "drawing"].contains s.toLower then false
    else motors_allow d.motors
  | none => motors_allow d.motors

/-- `PathSender._controller_allows_send` (lines 618-664): the readiness
gate consulted before each send. -/
def controller_allows_send (cfg : SenderConfig) (data : Option Telemetry) : Bool :=
  match data with
  | none => true
  | some d =>
    match d.queue with
    | some qi =>
      match qi.size with
      | some queue_size =>
        if cfg.controller_queue_capacity ≤ queue_size then false
        else if cfg.queue_fill_target ≤ queue_size then false
        else if queue_size ≤ cfg.queue_low_watermark then true
        else if !qi.isExecuting && queue_size == 0 then true
        else true
      | none => status_and_motors_allow d
    | none => status_and_motors_allow d

/-- `PathSender._determine_chunk_size` (lines 425-466). `remaining` stands
for `len(job.points) - job.sent_points`, `last_status_payload` for
`self._last_status_payload`. -/
def determine_chunk_size (cfg : SenderConfig) (remaining : ℤ) (first_batch : Bool)
    (last_status_payload : Option Telemetry) : ℤ :=
  if remaining ≤ 0 then 0
  else if first_batch then 1
  else
    let queue_info : Option QueueInfo :=
      match last_status_payload with
      | some d => d.queue
      | none => none
    let fallback :=
      let fallback_size := max cfg.min_chunk_size (min cfg.batch_size remaining)
      let fallback_size2 := min fallback_size cfg.max_points_per_request
      min remaining fallback_size2
    match queue_info with
    | some qi =>
      match qi.size with
      | some queue_size =>
        let target_queue_size := min cfg.queue_fill_target cfg.controller_queue_capacity
        let available_capacity := max (cfg.controller_queue_capacity - queue_size) 0
        if available_capacity ≤ 0 then 0
        else
          let desired_fill :=
            if !qi.isExecuting && queue_size == 0 && first_batch then target_queue_size
            else max (target_queue_size - queue_size) 0
          let desired_points := max desired_fill cfg.min_chunk_size
          let chunk := min remaining (min desired_points (min available_capacity
            (min cfg.batch_size cfg.max_points_per_request)))
          if chunk ≤ 0 then 0 else max 1 chunk
      | none => fallback
    | none => fallback

/-- Outcome of one status poll inside `PathSender._wait_until_ready`:
a 2xx response whose body parses to `payload` (`none` when the body is
not valid JSON or not a JSON object, as in `_extract_status_payload`),
a direct 404, an HTTP error raised by `raise_for_status` (carrying the
response status code), or a transport-level `RequestException` without
a response. -/
inductive PollOutcome
  | ok (payload : Option Telemetry)
  | notFound
  | httpError (code : ℤ)
  | transportError
  deriving Repr, DecidableEq

/-- Result of `PathSender._wait_until_ready`: whether the controller was
declared ready, how many polls were consumed, and the final value of
`self._last_status_payload`. -/
structure WaitResult where
  ready : Bool
  polls : ℕ
  last : Option Telemetry
  deriving Repr, DecidableEq

/-- The polling loop of `PathSender._wait_until_ready` (lines 568-602).
`fuel` models the `status_timeout` deadline as a number of remaining poll
iterations, `i` is the poll index, `consecutive_errors` the counter of the
source, and the last argument the current `self._last_status_payload`. -/
def wait_until_ready_go (cfg : SenderConfig) (poll : ℕ → PollOutcome)
    (cancelled : ℕ → Bool) : ℕ → ℕ → ℕ → Option Telemetry → WaitResult
  | 0, i, _, last => ⟨false, i, last⟩
  | fuel + 1, i, consecutive_errors, last =>
    if cancelled i then ⟨false, i, last⟩
    else
      match poll i with
      | .notFound => ⟨true, i + 1, none⟩
      | .ok payload =>
        if controller_allows_send cfg payload then ⟨true, i + 1, payload⟩
        else wait_until_ready_go cfg poll cancelled fuel (i + 1) 0 payload
      | .httpError code =>
        if code == 404 then ⟨true, i + 1, none⟩
        else if 3 ≤ consecutive_errors + 1 then ⟨true, i + 1, none⟩
        else wait_until_ready_go cfg poll cancelled fuel (i + 1) (consecutive_errors + 1) last
      | .transportError =>
        if 3 ≤ consecutive_errors + 1 then ⟨true, i + 1, none⟩
        else wait_until_ready_go cfg poll cancelled fuel (i + 1) (consecutive_errors + 1) last

/-- `PathSender._wait_until_ready` (lines 559-602) for a job that has a
`status_url`: the loop starts with a reset error counter and
`self._last_status_payload = None`. -/
def wait_until_ready (cfg : SenderConfig) (poll : ℕ → PollOutcome)
    (cancelled : ℕ → Bool) (fuel : ℕ) : WaitResult :=
  wait_until_ready_go cfg poll cancelled fuel 0 0 none

/-- Kind of a `requests.RequestException`: the `isinstance` checks of
`PathSender._is_retryable_error` distinguish `ConnectTimeout`,
`ReadTimeout` and `ConnectionError`; `httpError` stands for an
`HTTPError` raised by `raise_for_status`, `other` for any remaining
request exception. -/
inductive ReqErrorKind
  | connectTimeout
  | readTimeout
  | connectionError
  | httpError
  | other
  deriving Repr, DecidableEq

/-- A `requests.RequestException` as observed by the retry engine: its
kind and, when the exception carries a response, that response's HTTP
status code (`getattr(exc, "response", None)`). -/
structure ReqError where
  kind : ReqErrorKind
  response_status : Option ℤ
  deriving Repr, DecidableEq

/-- `PathSender._is_retryable_error` (lines 546-557). -/
def is_retryable_error (e : ReqError) : Bool :=
  if e.kind == .connectTimeout || e.kind == .readTimeout then true
  else if e.kind == .connectionError then true
  else
    match e.response_status with
    | some code => if 500 ≤ code ∧ code < 600 then true else false
    | none => false

/-- Result of `PathSender._post_with_retries`: success, an exception
propagated to the caller, the internal cancel signal, or fuel exhaustion
of the model (the source loop would still be running). Each constructor
records how many attempts were made. -/
inductive PostResult
  | ok (attempts : ℕ)
  | raised (e : ReqError) (attempts : ℕ)
  | cancelledSignal (attempts : ℕ)
  | fuelOut
  deriving Repr, DecidableEq

/-- The retry loop of `PathSender._post_with_retries` (lines 512-544).
`outcome i` is `none` when attempt `i` succeeds and `some e` when it
raises `e`; `clock i` is the wall-clock time observed after attempt `i`
fails, compared against the precomputed `deadline`. -/
def post_with_retries_go (interval deadline : ℚ) (cancelled pause_cancelled : ℕ → Bool)
    (outcome : ℕ → Option ReqError) (clock : ℕ → ℚ) : ℕ → ℕ → PostResult
  | 0, _ => .fuelOut
  | fuel + 1, i =>
    if cancelled i then .cancelledSignal i
    else if pause_cancelled i then .cancelledSignal i
    else
      match outcome i with
      | none => .ok (i + 1)
      | some e =>
        if !is_retryable_error e then .raised e (i + 1)
        else if deadline < clock i + interval then .raised e (i + 1)
        else post_with_retries_go interval deadline cancelled pause_cancelled
          outcome clock fuel (i + 1)

/-- A normalized path point in board millimetres
(the canonical `{x, y, penDown}` form). -/
structure Point where
  x : ℚ
  y : ℚ
  penDown : Bool
  deriving Repr, DecidableEq

/-- A point on the wire: two cable lengths and the pen flag
(`{l1, l2, penDown}`). -/
structure CablePoint where
  l1 : ℝ
  l2 : ℝ
  penDown : Bool

/-- `PathSender._compute_string_lengths` (lines 383-396): the kinematic
transform with its baked-in geometry constants. -/
noncomputable def compute_string_lengths (x y : ℝ) : ℝ × ℝ :=
  let d : ℝ := 29
  let motor_offset_y : ℝ := 60
  let board_width : ℝ := 1150
  let left_x := x - d
  let right_x := x + d
  let y_rel := y + motor_offset_y
  let left_len := Real.sqrt (left_x * left_x + y_rel * y_rel)
  let dx := board_width - right_x
  let right_len := Real.sqrt (dx * dx + y_rel * y_rel)
  (left_len, right_len)

/-- The loop body of `_build_payload` that converts one board point to a
wire point. -/
noncomputable def convert_point (pt : Point) : CablePoint :=
  { l1 := (compute_string_lengths pt.x pt.y).1
    l2 := (compute_string_lengths pt.x pt.y).2
    penDown := pt.penDown }

/-- The immutable part of `PathSendJob` (`path_sender.py` lines 17-49)
that the claims need; URLs and the job id are omitted, the mutable
progress fields live in `RunState`. A present `start_position` models a
truthy (non-empty) start-position dict. -/
structure PathSendJob where
  start_position : Option Point
  speed : ℤ
  reset : Bool
  points : List Point
  batch_size : ℤ
  deriving Repr, DecidableEq

/-- The JSON payload POSTed to the controller:
`{reset, speed, points[], startPosition?}`. -/
structure Payload where
  reset : Bool
  speed : ℤ
  points : List CablePoint
  startPosition : Option CablePoint

/-- `PathSender._build_payload` (lines 398-423). -/
noncomputable def build_payload (job : PathSendJob) (batch : List Point)
    (first_batch : Bool) : Payload :=
  let converted_batch := batch.map convert_point
  let base : Payload :=
    { reset := if first_batch then job.reset else false
      speed := job.speed
      points := converted_batch
      startPosition := none }
  match job.start_position with
  | some sp =>
    if first_batch && job.reset then
      { base with startPosition := some (convert_point sp) }
    else base
  | none => base

/-- Job lifecycle states (`ACTIVE_JOB_STATUSES ∪ FINAL_JOB_STATUSES`). -/
inductive JobStatus
  | pending
  | running
  | cancelling
  | completed
  | cancelled
  | failed
  deriving Repr, DecidableEq

/-- The mutable progress fields of `PathSendJob`, written by the worker
of `_run_job`; `trace` additionally records every payload the worker
actually sent (ghost state used to state the batch-level claims). -/
structure RunState where
  status : JobStatus
  sent_points : ℕ
  sent_batches : ℕ
  total_batches : ℕ
  error : Option String
  first_batch : Bool
  last_status_payload : Option Telemetry
  trace : List Payload

/-- `PathSendJob.__post_init__` (lines 41-49): the initial
`total_batches` estimate `(len(points) + batch_size - 1) // batch_size`
computed when `batch_size > 0` (the freshly constructed job always has
`total_batches = 0 ≤ 0`). -/
def init_total_batches (job : PathSendJob) : ℕ :=
  if 0 < job.batch_size then
    (((job.points.length : ℤ) + job.batch_size - 1) / job.batch_size).toNat
  else 0

/-- The job's state as constructed (`pending`, no progress). -/
def initRunState (job : PathSendJob) : RunState :=
  { status := .pending
    sent_points := 0
    sent_batches := 0
    total_batches := init_total_batches job
    error := none
    first_batch := true
    last_status_payload := none
    trace := [] }

/-- `PathSendJob.mark_running` (lines 72-78). -/
def mark_running (job : PathSendJob) (st : RunState) : RunState :=
  let estimate :=
    if 0 < job.batch_size then
      (((job.points.length : ℤ) + job.batch_size - 1) / job.batch_size).toNat
    else st.total_batches
  { st with status := .running, total_batches := max st.total_batches estimate }

/-- `PathSendJob.mark_complete` (lines 80-83). -/
def mark_complete (st : RunState) : RunState :=
  { st with status := .completed, error := none }

/-- `PathSendJob.mark_failed` (lines 85-88). -/
def mark_failed (st : RunState) (message : String) : RunState :=
  { st with status := .failed, error := some message }

/-- `PathSendJob.mark_cancelled` (lines 90-94). -/
def mark_cancelled (st : RunState) : RunState :=
  { st with status := .cancelled
            error := match st.error with
                     | none => some "Cancelled"
                     | some e => some e }

/-- `str(exc)` for the exceptions `_run_job` records in `job.error`. -/
def req_error_message (e : ReqError) : String :=
  match e.response_status with
  | some code => "HTTP " ++ toString code
  | none => "request exception"

/-- Outcome of `_post_with_retries` followed by
`_validate_controller_ack`, as seen by one iteration of `_run_job`:
the batch was accepted, a request exception was propagated, the
acknowledgement was rejected (`RuntimeError`), or the cancel signal
fired during the retries. -/
inductive SendResult
  | accepted
  | transportError (e : ReqError)
  | ackError (message : String)
  | cancelledDuring
  deriving Repr, DecidableEq

/-- Outcome of `_wait_until_ready` as seen by one iteration of
`_run_job`: ready with the resulting `_last_status_payload`, timed out,
or interrupted by a cancel request. -/
inductive ReadyOutcome
  | ready (payload : Option Telemetry)
  | notReadyTimeout
  | notReadyCancelled
  deriving Repr, DecidableEq

/-- The environment one iteration of the `_run_job` while-loop interacts
with: the cancel flag at the top of the loop, cancellation while paused
(`wait_if_paused` returning `False`), the readiness wait, and the send. -/
structure IterEnv where
  cancelled : Bool
  pause_cancelled : Bool
  readiness : ReadyOutcome
  send : SendResult
  deriving Repr, DecidableEq

/-- One iteration of the while-loop of `PathSender._run_job`
(lines 322-367), entered only when `sent_points < len(points)`.
The returned flag is `true` when the loop continues (`continue` or a
successful send) and `false` when the function returns or breaks. -/
noncomputable def run_step (job : PathSendJob) (cfg : SenderConfig) (env : IterEnv)
    (st : RunState) : RunState × Bool :=
  if env.cancelled then (mark_cancelled st, false)
  else if env.pause_cancelled then (mark_cancelled st, false)
  else
    match env.readiness with
    | .notReadyCancelled => (mark_cancelled st, false)
    | .notReadyTimeout =>
      (mark_failed st "Controller did not become ready in time", false)
    | .ready payload =>
      let st1 := { st with last_status_payload := payload }
      let total_points := job.points.length
      let remaining : ℤ := (total_points : ℤ) - st1.sent_points
      let chunk_size := determine_chunk_size cfg remaining st1.first_batch payload
      if chunk_size ≤ 0 then (st1, true)
      else
        let start_index := st1.sent_points
        let end_index := min (start_index + chunk_size.toNat) total_points
        let batch_points := (job.points.drop start_index).take (end_index - start_index)
        if batch_points.isEmpty then (st1, false)
        else
          let estimated_remaining_points := total_points - end_index
          let future_batches :=
            (estimated_remaining_points + chunk_size.toNat - 1) / chunk_size.toNat
          let st2 := { st1 with
            total_batches := max st1.total_batches (st1.sent_batches + 1 + future_batches) }
          let payload_msg := build_payload job batch_points st2.first_batch
          match env.send with
          | .cancelledDuring => (mark_cancelled st2, false)
          | .transportError e => (mark_failed st2 (req_error_message e), false)
          | .ackError m => (mark_failed st2 m, false)
          | .accepted =>
            ({ st2 with
                sent_batches := st2.sent_batches + 1
                sent_points := st2.sent_points + batch_points.length
                total_batches := max st2.total_batches (st2.sent_batches + 1)
                first_batch := false
                trace := st2.trace ++ [payload_msg] }, true)

/-- The while-loop of `PathSender._run_job` with its exit action
(`mark_complete` when all points are sent); `fuel` bounds the number of
iterations, `i` indexes the environment. -/
noncomputable def run_loop (job : PathSendJob) (cfg : SenderConfig)
    (env : ℕ → IterEnv) : ℕ → ℕ → RunState → RunState
  | 0, _, st =>
    if st.sent_points < job.points.length then st else mark_complete st
  | fuel + 1, i, st =>
    if st.sent_points < job.points.length then
      match run_step job cfg (env i) st with
      | (st', true) => run_loop job cfg env fuel (i + 1) st'
      | (st', false) => st'
    else mark_complete st

/-- `PathSender._run_job` (lines 316-370): mark the job running, then
loop. -/
noncomputable def run_job (job : PathSendJob) (cfg : SenderConfig)
    (env : ℕ → IterEnv) (fuel : ℕ) : RunState :=
  run_loop job cfg env fuel 0 (mark_running job (initRunState job))

/-- `PathSender.start_job` (lines 150-199) restricted to what the claims
observe: the empty-input check, the synthetic pen-up travel point
prepended in front of the normalized points, the derivation of the start
position (caller-supplied, else live controller state, else an error),
and the constructed job. -/
def mk_job (cfg : SenderConfig) (points : List Point) (start_position : Option Point)
    (controller_state : Option Point) (speed : ℤ) (reset : Bool) :
    Except String PathSendJob :=
  if points.isEmpty then .error "points must not be empty"
  else
    let job_points :=
      match points with
      | [] => ([] : List Point)
      | first :: _ => { x := first.x, y := first.y, penDown := false } :: points
    let derived_start :=
      match start_position with
      | some sp => some sp
      | none => controller_state
    match derived_start with
    | none => .error "start_position required"
    | some sp =>
      .ok { start_position := some sp
            speed := max 1 speed
            reset := reset
            points := job_points
            batch_size := cfg.batch_size }

/-- The five user points of scenario S1. -/
def s1_user_points : List Point :=
  [⟨100, 100, false⟩, ⟨100, 100, true⟩, ⟨150, 100, true⟩, ⟨200, 100, true⟩,
   ⟨250, 100, true⟩]

/-- A start position for scenario S1 (the scenario leaves it unspecified;
`start_job` requires one when the telemetry carries no `state`). -/
def s1_start : Point := ⟨100, 100, false⟩

/-- The job `start_job` builds for scenario S1: the synthetic travel point
followed by the five user points. -/
def s1_job : PathSendJob :=
  { start_position := some s1_start
    speed := 1800
    reset := true
    points := ⟨100, 100, false⟩ :: s1_user_points
    batch_size := 200 }

/-- The constant controller telemetry of scenario S1:
`{size: 0, isExecuting: false}`. -/
def s1_telemetry : Telemetry := ⟨some ⟨some 0, false⟩, none, none⟩

/-- The S1 environment: never cancelled, always ready with the constant
telemetry, every send accepted. -/
def s1_env : ℕ → IterEnv := fun _ =>
  ⟨false, false, .ready (some s1_telemetry), .accepted⟩

/-- The final state of the S1 job run. -/
noncomputable def s1_run : RunState := run_job s1_job defaultConfig s1_env 10

/-- A Python float value: finite (exact rational model), infinite, or
NaN. -/
inductive PyFloat
  | finite (q : ℚ)
  | inf
  | neginf
  | nan
  deriving Repr, DecidableEq

/-- A Python value as it may appear in the `points` argument of
`start_job`: a dict, a sequence (list or tuple), a number, a bool, or
`None`. String values are outside the model. -/
inductive PyValue
  | dict (entries : List (String × PyValue))
  | seq (items : List PyValue)
  | num (v : PyFloat)
  | boolean (b : Bool)
  | pynone

/-- Python dict lookup (`point["x"]` / `point.get(key)`). -/
def dictGet (entries : List (String × PyValue)) (key : String) : Option PyValue :=
  (entries.find? (fun e => e.1 == key)).map (fun e => e.2)

/-- Python `float(value)` on the modelled values: numbers pass through
(including non-finite ones), booleans become 0.0/1.0, everything else
raises. -/
def pyFloatConv : PyValue → Option PyFloat
  | .num v => some v
  | .boolean b => some (.finite (if b then 1 else 0))
  | _ => none

/-- Python truthiness (`bool(value)`) on the modelled values. -/
def pyTruthy : PyValue → Bool
  | .dict es => !es.isEmpty
  | .seq its => !its.isEmpty
  | .num (.finite q) => decide (q ≠ 0)
  | .num _ => true
  | .boolean b => b
  | .pynone => false

/-- The canonical normalized point, coordinates kept as Python floats
(so that non-finite inputs remain representable). -/
structure NormPoint where
  x : PyFloat
  y : PyFloat
  penDown : Bool
  deriving Repr, DecidableEq

/-- `PathSender._normalize_point` (lines 468-479): only dicts are
accepted; `x` and `y` must be present and float-convertible; `penDown`
defaults to the truthiness of `point.get("penDown")`. -/
def normalize_point : PyValue → Except String NormPoint
  | .dict entries =>
    match dictGet entries "x", dictGet entries "y" with
    | some xv, some yv =>
      match pyFloatConv xv, pyFloatConv yv with
      | some x, some y =>
        .ok { x := x
              y := y
              penDown := match dictGet entries "penDown" with
                         | some v => pyTruthy v
                         | none => false }
      | _, _ => .error "could not convert point coordinate to float"
    | _, _ => .error "point dictionaries must include x and y keys"
  | _ => .error "points must be dictionaries with x, y, penDown keys"

/-- The eager normalization in `start_job` (line 166,
`[self._normalize_point(pt) for pt in points]`): the first failing
element propagates its error, and no job is constructed. -/
def normalize_points : List PyValue → Except String (List NormPoint)
  | [] => .ok []
  | pt :: rest =>
    match normalize_point pt with
    | .error e => .error e
    | .ok p =>
      match normalize_points rest with
      | .error e => .error e
      | .ok ps => .ok (p :: ps)

/-- `ACTIVE_JOB_STATUSES` (line 14). -/
def ACTIVE_JOB_STATUSES : List JobStatus := [.pending, .running, .cancelling]

/-- `FINAL_JOB_STATUSES` (line 15). -/
def FINAL_JOB_STATUSES : List JobStatus := [.completed, .cancelled, .failed]

/-- The job fields touched by the coordinator operations `pause_current`,
`resume_current` and `cancel_current`. -/
structure JobCtl where
  status : JobStatus
  paused : Bool
  pause_gate_open : Bool
  cancel_requested : Bool
  error : Option String
  cancel_url : Option String
  deriving Repr, DecidableEq

/-- The coordinator's job register: `self._job` and `self._last_job`,
guarded by `self._lock`. -/
structure CoordState where
  job : Option JobCtl
  last_job : Option JobCtl
  deriving Repr, DecidableEq

/-- `PathSendJob.request_cancel` (lines 55-56). -/
def request_cancel (j : JobCtl) : JobCtl := { j with cancel_requested := true }

/-- `PathSendJob.pause` (lines 58-60). -/
def job_pause (j : JobCtl) : JobCtl :=
  { j with paused := true, pause_gate_open := false }

/-- `PathSendJob.resume` (lines 62-64). -/
def job_resume (j : JobCtl) : JobCtl :=
  { j with paused := false, pause_gate_open := true }

/-- The `_last_job` clearing in the inactive branch of `cancel_current`
(lines 225-227). -/
def clear_final_last_job (last_job : Option JobCtl) : Option JobCtl :=
  match last_job with
  | some l => if l.status ∈ FINAL_JOB_STATUSES then none else some l
  | none => none

/-- `PathSender.cancel_current` (lines 214-234): the new coordinator
state together with the cancel URL the method POSTs to afterwards (when
present). -/
def cancel_current (s : CoordState) : CoordState × Option String :=
  match s.job with
  | some j =>
    if j.status ∈ ACTIVE_JOB_STATUSES then
      let j1 := request_cancel j
      let j2 := if j1.status ∈ [JobStatus.cancelled, JobStatus.failed] then j1
        else { j1 with status := .cancelling }
      ({ s with job := some j2 }, j.cancel_url)
    else
      ({ s with last_job := clear_final_last_job s.last_job }, none)
  | none =>
    ({ s with last_job := clear_final_last_job s.last_job }, none)

/-- `PathSender.pause_current` (lines 236-241). -/
def pause_current (s : CoordState) : CoordState :=
  match s.job with
  | some j =>
    if j.status ∈ [JobStatus.pending, JobStatus.running] then
      { s with job := some (job_pause j) }
    else s
  | none => s

/-- `PathSender.resume_current` (lines 243-248). -/
def resume_current (s : CoordState) : CoordState :=
  match s.job with
  | some j =>
    if j.status ∈ [JobStatus.pending, JobStatus.running] then
      { s with job := some (job_resume j) }
    else s
  | none => s

/-- A job stuck in `cancelling` with a pending (not yet requested) cancel
flag and a cancel URL. -/
def c8_cancelling_job : JobCtl :=
  { status := .cancelling
    paused := false
    pause_gate_open := true
    cancel_requested := false
    error := none
    cancel_url := some "http://controller/api/cancel" }

/-- Coordinator state whose current job is `cancelling`. -/
def c8_cancelling_state : CoordState :=
  { job := some c8_cancelling_job, last_job := none }

/-- A terminal (completed) job. -/
def c8_done_job : JobCtl :=
  { status := .completed
    paused := false
    pause_gate_open := true
    cancel_requested := false
    error := none
    cancel_url := none }

/-- Coordinator state whose current job is terminal while a terminal
last job is still retained. -/
def c8_done_state : CoordState :=
  { job := some c8_done_job, last_job := some c8_done_job }

/-- C10: for all constructor arguments, the constructed `PathSender`
configuration satisfies `1 ≤ batch_size ≤ max_points_per_request`,
`1 ≤ min_chunk_size ≤ max_points_per_request`,
`1 ≤ queue_fill_target ≤ controller_queue_capacity`,
`status_poll_interval ≥ 0.1`, `send_retry_interval ≥ 0.5`,
`status_timeout ≥ status_poll_interval`,
`send_retry_timeout ≥ send_retry_interval`, and
`queue_low_watermark < queue_fill_target` whenever
`queue_low_watermark < controller_queue_capacity`. -/
theorem constructor_clamps_invariant (batch_size : ℤ)
    (timeout status_poll_interval status_timeout send_retry_interval
      send_retry_timeout : ℚ) (controller_queue_capacity : ℤ)
    (queue_fill_target : Option ℤ)
    (queue_low_watermark min_chunk_size max_points_per_request : ℤ)
    (cfg : SenderConfig)
    (hcfg : cfg = mkPathSender batch_size timeout status_poll_interval
      status_timeout send_retry_interval send_retry_timeout
      controller_queue_capacity queue_fill_target queue_low_watermark
      min_chunk_size max_points_per_request) :
    (1 ≤ cfg.batch_size ∧ cfg.batch_size ≤ cfg.max_points_per_request) ∧
    (1 ≤ cfg.min_chunk_size ∧ cfg.min_chunk_size ≤ cfg.max_points_per_request) ∧
    (1 ≤ cfg.queue_fill_target ∧
      cfg.queue_fill_target ≤ cfg.controller_queue_capacity) ∧
    (1/10 : ℚ) ≤ cfg.status_poll_interval ∧
    (1/2 : ℚ) ≤ cfg.send_retry_interval ∧
    cfg.status_poll_interval ≤ cfg.status_timeout ∧
    cfg.send_retry_interval ≤ cfg.send_retry_timeout ∧
    (cfg.queue_low_watermark < cfg.controller_queue_capacity →
      cfg.queue_low_watermark < cfg.queue_fill_target) := by
  subst hcfg
  rcases queue_fill_target with _ | q <;>
    (refine ⟨⟨?_, ?_⟩, ⟨?_, ?_⟩, ⟨?_, ?_⟩, ?_, ?_, ?_, ?_, ?_⟩ <;>
       simp only [mkPathSender] <;>
       first
         | exact le_max_left _ _
         | ((repeat' split) <;> omega))

/-- C10 witness: at the default arguments the clamps hold, in particular
the low watermark (200) stays below the fill target (2500). -/
theorem constructor_clamps_invariant_witness :
    1 ≤ defaultConfig.batch_size ∧
      defaultConfig.queue_low_watermark < defaultConfig.queue_fill_target :=
  ⟨(constructor_clamps_invariant 200 30 (1/2) 300 2 120 3000 none 200 200 200
      defaultConfig rfl).1.1,
   (constructor_clamps_invariant 200 30 (1/2) 300 2 120 3000 none 200 200 200
      defaultConfig rfl).2.2.2.2.2.2.2 (by decide)⟩

/-- Helper: when the readiness gate passes on telemetry that carries an
integer queue size, that size is strictly below the configured capacity
(first check of `_controller_allows_send`). -/
theorem allows_send_size_lt_cap (cfg : SenderConfig) (d : Telemetry) (qi : QueueInfo)
    (s : ℤ) (hq : d.queue = some qi) (hs : qi.size = some s)
    (h : controller_allows_send cfg (some d) = true) :
    s < cfg.controller_queue_capacity := by
  simp only [controller_allows_send, hq, hs] at h
  by_contra hcap
  push_neg at hcap
  rw [if_pos hcap] at h
  exact Bool.false_ne_true h

/-- Helper: a successful `_wait_until_ready` loop that leaves a parsed
telemetry payload behind can only have returned through the
`_controller_allows_send` branch, so the gate accepted that payload. -/
theorem wait_ready_last_allows (cfg : SenderConfig) (poll : ℕ → PollOutcome)
    (cancelled : ℕ → Bool) :
    ∀ (fuel i k : ℕ) (last0 : Option Telemetry) (d : Telemetry),
      (wait_until_ready_go cfg poll cancelled fuel i k last0).ready = true →
      (wait_until_ready_go cfg poll cancelled fuel i k last0).last = some d →
      controller_allows_send cfg (some d) = true := by
  intro fuel
  induction fuel with
  | zero =>
    intro i k last0 d hready _
    simp [wait_until_ready_go] at hready
  | succ n ih =>
    intro i k last0 d hready hlast
    by_cases hc : cancelled i = true
    · simp [wait_until_ready_go, hc] at hready
    · rw [Bool.not_eq_true] at hc
      cases hp : poll i with
      | notFound =>
        simp [wait_until_ready_go, hc, hp] at hlast
      | ok payload =>
        by_cases hg : controller_allows_send cfg payload = true
        · simp only [wait_until_ready_go, hc, hp, Bool.false_eq_true, if_false,
            hg, if_true] at hlast
          rw [hlast] at hg
          exact hg
        · rw [Bool.not_eq_true] at hg
          simp only [wait_until_ready_go, hc, hp, Bool.false_eq_true, if_false,
            hg] at hready hlast
          exact ih (i + 1) 0 payload d hready hlast
      | httpError code =>
        by_cases h404 : (code == 404) = true
        · simp [wait_until_ready_go, hc, hp, h404] at hlast
        · rw [Bool.not_eq_true] at h404
          by_cases h3 : 3 ≤ k + 1
          · simp [wait_until_ready_go, hc, hp, h404, h3] at hlast
          · simp only [wait_until_ready_go, hc, hp, Bool.false_eq_true, if_false,
              h404, h3, if_neg h3] at hready hlast
            exact ih (i + 1) (k + 1) last0 d hready hlast
      | transportError =>
        by_cases h3 : 3 ≤ k + 1
        · simp [wait_until_ready_go, hc, hp, h3] at hlast
        · simp only [wait_until_ready_go, hc, hp, Bool.false_eq_true, if_false,
            h3, if_neg h3] at hready hlast
          exact ih (i + 1) (k + 1) last0 d hready hlast

/-- C1: for every send iteration in which the last parsed telemetry
provides an integer queue size `s` (which, the telemetry having been kept,
means the readiness gate accepted it), the chunk chosen by
`_determine_chunk_size` satisfies `s + chunk ≤ controller_queue_capacity`;
when no capacity remains the chunk is `0`; and a successful readiness wait
that retains a telemetry payload implies the gate accepted that payload. -/
theorem chunk_respects_queue_capacity :
    (∀ (cfg : SenderConfig) (d : Telemetry) (qi : QueueInfo) (s remaining : ℤ)
        (first_batch : Bool), d.queue = some qi → qi.size = some s →
        controller_allows_send cfg (some d) = true →
        s + determine_chunk_size cfg remaining first_batch (some d) ≤
          cfg.controller_queue_capacity) ∧
    (∀ (cfg : SenderConfig) (d : Telemetry) (qi : QueueInfo) (s remaining : ℤ),
        d.queue = some qi → qi.size = some s →
        cfg.controller_queue_capacity - s ≤ 0 →
        determine_chunk_size cfg remaining false (some d) = 0) ∧
    (∀ (cfg : SenderConfig) (poll : ℕ → PollOutcome) (cancelled : ℕ → Bool)
        (fuel : ℕ) (d : Telemetry),
        (wait_until_ready cfg poll cancelled fuel).ready = true →
        (wait_until_ready cfg poll cancelled fuel).last = some d →
        controller_allows_send cfg (some d) = true) := by
  refine ⟨?_, ?_, ?_⟩
  · intro cfg d qi s remaining first_batch hq hs hgate
    have hlt := allows_send_size_lt_cap cfg d qi s hq hs hgate
    simp only [determine_chunk_size, hq, hs]
    split_ifs <;> omega
  · intro cfg d qi s remaining hq hs hcap
    simp only [determine_chunk_size, hq, hs, Bool.and_false, Bool.false_eq_true,
      if_false]
    split_ifs <;> omega
  · intro cfg poll cancelled fuel d hready hlast
    exact wait_ready_last_allows cfg poll cancelled fuel 0 0 none d hready hlast

/-- C1 witness: queue size 100 under the default configuration passes the
gate and the chosen chunk keeps the queue within capacity. -/
theorem chunk_respects_queue_capacity_witness :
    (100 : ℤ) + determine_chunk_size defaultConfig 50 false
        (some ⟨some ⟨some 100, true⟩, none, none⟩) ≤
      defaultConfig.controller_queue_capacity :=
  chunk_respects_queue_capacity.1 defaultConfig ⟨some ⟨some 100, true⟩, none, none⟩
    ⟨some 100, true⟩ 100 50 false rfl rfl (by decide)

/-- C3 counterexample: under the S1 conditions (5 user points, telemetry
always `{size: 0, isExecuting: false}`, every send accepted) the worker
sends 6 points in batches of 1 and 5 — not 5 points in batches of 1 and
4 — because `start_job` always prepends the synthetic travel point in
front of the user points. -/
theorem s1_scenario_counterexample :
    s1_run.sent_points = 6 ∧ s1_run.sent_points ≠ 5 ∧
    s1_run.trace.map (fun p => p.points.length) = [1, 5] ∧
    s1_run.trace.map (fun p => p.points.length) ≠ [1, 4] := by
  refine ⟨rfl, ?_, rfl, ?_⟩ <;> decide

/-- C3 (amended): the S1 job as built by `start_job` holds the synthetic
travel point plus the 5 user points; the run sends exactly 2 batches (1
point, then 5), terminates `completed`, and ends with `sent_points = 6`. -/
theorem s1_scenario_amended :
    mk_job defaultConfig s1_user_points (some s1_start) none 1800 true = .ok s1_job ∧
    s1_run.status = JobStatus.completed ∧
    s1_run.sent_batches = 2 ∧
    s1_run.trace.map (fun p => p.points.length) = [1, 5] ∧
    s1_run.sent_points = 6 :=
  ⟨rfl, rfl, rfl, rfl, rfl⟩

/-- C6: the cable lengths computed at batch build time are
`l1 = √((x - carriage_offset)² + (y + motor_offset_y)²)` and
`l2 = √((board_width - (x + carriage_offset))² + (y + motor_offset_y)²)`
with `board_width = 1150`, `motor_offset_y = 60`, `carriage_offset = 29`;
and `_build_payload` applies exactly this transform to every point of the
batch. -/
theorem kinematic_transform_formula :
    (∀ x y : ℝ, compute_string_lengths x y =
      (Real.sqrt ((x - 29) ^ 2 + (y + 60) ^ 2),
       Real.sqrt ((1150 - (x + 29)) ^ 2 + (y + 60) ^ 2))) ∧
    (∀ (job : PathSendJob) (batch : List Point) (first_batch : Bool),
      (build_payload job batch first_batch).points = batch.map convert_point) := by
  constructor
  · intro x y
    simp only [compute_string_lengths, Prod.mk.injEq]
    constructor <;> (congr 1; ring)
  · intro job batch first_batch
    cases hsp : job.start_position with
    | none => simp [build_payload, hsp]
    | some sp =>
      by_cases h : (first_batch && job.reset) = true <;> simp [build_payload, hsp, h]

/-- C4: a send failure is classified retryable exactly when it is a
connect timeout, a read timeout, a connection error, or carries an HTTP
response with status in 500-599; a non-retryable failure on the first
attempt is raised after exactly that one attempt; and `_run_job` marks
the job `failed` when the send propagates a request exception. -/
theorem retryable_classification :
    (∀ e : ReqError, is_retryable_error e = true ↔
      (e.kind = .connectTimeout ∨ e.kind = .readTimeout ∨
        e.kind = .connectionError ∨
        ∃ code, e.response_status = some code ∧ 500 ≤ code ∧ code < 600)) ∧
    (∀ (interval deadline : ℚ) (cancelled pause_cancelled : ℕ → Bool)
        (outcome : ℕ → Option ReqError) (clock : ℕ → ℚ) (fuel : ℕ) (e : ReqError),
        cancelled 0 = false → pause_cancelled 0 = false →
        outcome 0 = some e → is_retryable_error e = false →
        post_with_retries_go interval deadline cancelled pause_cancelled outcome
          clock (fuel + 1) 0 = .raised e 1) ∧
    (∀ (job : PathSendJob) (cfg : SenderConfig) (env : IterEnv) (st : RunState)
        (payload : Option Telemetry) (e : ReqError),
        env.cancelled = false → env.pause_cancelled = false →
        env.readiness = .ready payload → env.send = .transportError e →
        0 < determine_chunk_size cfg ((job.points.length : ℤ) - st.sent_points)
          st.first_batch payload →
        st.sent_points < job.points.length →
        (run_step job cfg env st).1.status = .failed ∧
          (run_step job cfg env st).2 = false) := by
  refine ⟨?_, ?_, ?_⟩
  · rintro ⟨kind, rs⟩
    cases kind <;> rcases rs with _ | code <;>
      simp [is_retryable_error]
  · intro interval deadline cancelled pause_cancelled outcome clock fuel e hc hp ho hr
    simp [post_with_retries_go, hc, hp, ho, hr]
  · intro job cfg env st payload e hc hp hr hs hchunk hlt
    have hc0 : ¬ determine_chunk_size cfg ((job.points.length : ℤ) - st.sent_points)
        st.first_batch payload ≤ 0 := by omega
    simp only [run_step, hc, hp, hr, Bool.false_eq_true, if_false, hc0, hs]
    have hne : ¬ ((job.points.drop st.sent_points).take
        (min (st.sent_points + (determine_chunk_size cfg
          ((job.points.length : ℤ) - st.sent_points) st.first_batch payload).toNat)
          job.points.length - st.sent_points)).isEmpty = true := by
      simp only [List.isEmpty_iff_length_eq_zero, List.length_take, List.length_drop]
      omega
    simp only [hne, if_false, mark_failed]
    exact ⟨rfl, rfl⟩

/-- C4 witness: an HTTP 400 response is not retryable and is raised after
a single attempt. -/
theorem retryable_classification_witness :
    post_with_retries_go 2 120 (fun _ => false) (fun _ => false)
      (fun _ => some ⟨.httpError, some 400⟩) (fun _ => 0) 5 0 =
      .raised ⟨.httpError, some 400⟩ 1 :=
  retryable_classification.2.1 2 120 _ _ _ _ 4 ⟨.httpError, some 400⟩ rfl rfl rfl
    (by decide)

/-- C7 counterexample: a successful HTTP response whose body is
unparseable (extracted payload `none`) makes `_wait_until_ready` proceed
after a single poll — `_controller_allows_send(None)` returns `True` —
rather than keep polling until a third consecutive failure. -/
theorem unparseable_status_proceeds_immediately :
    wait_until_ready defaultConfig (fun _ => .ok none) (fun _ => false) 10 =
      ⟨true, 1, none⟩ := by
  decide

/-- C7 (amended): only transport-level poll failures (request exceptions
without a 404 response) feed the consecutive-error counter: three of them
in a row degrade the gate to "proceed"; an HTTP-successful but
unparseable status response is treated as absent telemetry and lets the
send proceed at once. -/
theorem degrade_after_three_transport_errors (cfg : SenderConfig)
    (poll : ℕ → PollOutcome) (cancelled : ℕ → Bool) (fuel : ℕ)
    (hf : 3 ≤ fuel)
    (hp : ∀ i, i < 3 → poll i = .transportError)
    (hc : ∀ i, i < 3 → cancelled i = false) :
    wait_until_ready cfg poll cancelled fuel = ⟨true, 3, none⟩ := by
  obtain ⟨m, rfl⟩ : ∃ m, fuel = m + 3 := ⟨fuel - 3, by omega⟩
  have h0 := hp 0 (by norm_num)
  have h1 := hp 1 (by norm_num)
  have h2 := hp 2 (by norm_num)
  have c0 := hc 0 (by norm_num)
  have c1 := hc 1 (by norm_num)
  have c2 := hc 2 (by norm_num)
  show wait_until_ready_go cfg poll cancelled (m + 3) 0 0 none = ⟨true, 3, none⟩
  rw [show m + 3 = (m + 2) + 1 from rfl, wait_until_ready_go]
  simp only [c0, h0, Bool.false_eq_true, if_false]
  norm_num
  rw [show m + 2 = (m + 1) + 1 from rfl, wait_until_ready_go]
  simp only [c1, h1, Bool.false_eq_true, if_false]
  norm_num
  rw [wait_until_ready_go]
  simp only [c2, h2, Bool.false_eq_true, if_false]
  norm_num

/-- C7 witness: three consecutive transport errors at the default
configuration make the wait proceed after exactly three polls. -/
theorem degrade_after_three_transport_errors_witness :
    wait_until_ready defaultConfig (fun _ => PollOutcome.transportError)
      (fun _ => false) 3 = ⟨true, 3, none⟩ :=
  degrade_after_three_transport_errors defaultConfig _ _ 3 (by norm_num)
    (fun _ _ => rfl) (fun _ _ => rfl)

/-- Helper: one loop iteration preserves `sent_points ≤ len(points)` and
`sent_batches ≤ total_batches`. -/
theorem run_step_preserves_inv (job : PathSendJob) (cfg : SenderConfig)
    (env : IterEnv) (st : RunState)
    (h1 : st.sent_points ≤ job.points.length)
    (h2 : st.sent_batches ≤ st.total_batches) :
    (run_step job cfg env st).1.sent_points ≤ job.points.length ∧
      (run_step job cfg env st).1.sent_batches ≤
        (run_step job cfg env st).1.total_batches := by
  rcases env with ⟨ec, ep, er, es⟩
  dsimp only [run_step]
  cases ec
  case true => exact ⟨h1, h2⟩
  case false =>
  cases ep
  case true => exact ⟨h1, h2⟩
  case false =>
  simp only [Bool.false_eq_true, if_false]
  cases er with
  | notReadyCancelled => exact ⟨h1, h2⟩
  | notReadyTimeout => exact ⟨h1, h2⟩
  | ready payload =>
    dsimp only
    split_ifs with hchunk hempty
    · exact ⟨h1, h2⟩
    · exact ⟨h1, h2⟩
    · cases es with
      | cancelledDuring => exact ⟨h1, by dsimp only [mark_cancelled]; omega⟩
      | transportError e => exact ⟨h1, by dsimp only [mark_failed]; omega⟩
      | ackError m => exact ⟨h1, by dsimp only [mark_failed]; omega⟩
      | accepted =>
        refine ⟨?_, by dsimp only; omega⟩
        dsimp only
        simp only [List.length_take, List.length_drop]
        omega

/-- Helper: the loop preserves the progress invariant from any state
satisfying it. -/
theorem run_loop_preserves_inv (job : PathSendJob) (cfg : SenderConfig)
    (env : ℕ → IterEnv) :
    ∀ (fuel i : ℕ) (st : RunState),
      st.sent_points ≤ job.points.length →
      st.sent_batches ≤ st.total_batches →
      (run_loop job cfg env fuel i st).sent_points ≤ job.points.length ∧
        (run_loop job cfg env fuel i st).sent_batches ≤
          (run_loop job cfg env fuel i st).total_batches := by
  intro fuel
  induction fuel with
  | zero =>
    intro i st h1 h2
    dsimp only [run_loop]
    split_ifs
    · exact ⟨h1, h2⟩
    · exact ⟨h1, h2⟩
  | succ n ih =>
    intro i st h1 h2
    dsimp only [run_loop]
    split_ifs with hlt
    · have hstep := run_step_preserves_inv job cfg (env i) st h1 h2
      rcases hrs : run_step job cfg (env i) st with ⟨st', cont⟩
      rw [hrs] at hstep
      cases cont
      · exact hstep
      · exact ih (i + 1) st' hstep.1 hstep.2
    · exact ⟨h1, h2⟩

/-- C9: from job creation (`__post_init__`) through every batch
acknowledgement to any terminal state, the worker maintains
`sent_points ≤ len(points)` and `sent_batches ≤ total_batches`
(`0 ≤ sent_points` holds by the `ℕ` representation: the code only ever
adds batch lengths to an initial 0). Quantifying over the fuel covers
every intermediate state of the run. -/
theorem progress_invariant (job : PathSendJob) (cfg : SenderConfig)
    (env : ℕ → IterEnv) (fuel : ℕ) :
    (run_job job cfg env fuel).sent_points ≤ job.points.length ∧
      (run_job job cfg env fuel).sent_batches ≤
        (run_job job cfg env fuel).total_batches :=
  run_loop_preserves_inv job cfg env fuel 0
    (mark_running job (initRunState job)) (Nat.zero_le _) (Nat.zero_le _)

/-- Helper: a payload built for a non-first batch has `reset = false` and
no `startPosition`. -/
theorem build_payload_not_first (job : PathSendJob) (batch : List Point) :
    (build_payload job batch false).reset = false ∧
      (build_payload job batch false).startPosition = none := by
  cases hsp : job.start_position <;> simp [build_payload, hsp]

/-- Helper: a payload built for the first batch has `reset = job.reset`,
carries `startPosition` exactly when `job.reset` (given a present start
position), and keeps the batch length. -/
theorem build_payload_first (job : PathSendJob) (batch : List Point)
    (hsp : job.start_position.isSome = true) :
    (build_payload job batch true).reset = job.reset ∧
      (build_payload job batch true).startPosition.isSome = job.reset ∧
      (build_payload job batch true).points.length = batch.length := by
  obtain ⟨sp, hsp'⟩ := Option.isSome_iff_exists.mp hsp
  by_cases hr : job.reset = true
  · simp [build_payload, hsp', hr]
  · rw [Bool.not_eq_true] at hr
    simp [build_payload, hsp', hr]

/-- Helper: the first batch is always sized to a single point. -/
theorem determine_chunk_first (cfg : SenderConfig) (remaining : ℤ)
    (payload : Option Telemetry) (h : 0 < remaining) :
    determine_chunk_size cfg remaining true payload = 1 := by
  simp [determine_chunk_size, not_le.mpr h]

/-- Helper: an iteration that starts after the first batch only appends
payloads with `reset = false` and no `startPosition`, and leaves
`first_batch` false. -/
theorem run_step_trace_not_first (job : PathSendJob) (cfg : SenderConfig)
    (env : IterEnv) (st : RunState) (hfb : st.first_batch = false) :
    (run_step job cfg env st).1.first_batch = false ∧
      ∃ ps, (run_step job cfg env st).1.trace = st.trace ++ ps ∧
        ∀ p ∈ ps, p.reset = false ∧ p.startPosition = none := by
  rcases env with ⟨ec, ep, er, es⟩
  dsimp only [run_step]
  cases ec
  case true => exact ⟨hfb, [], by simp [mark_cancelled], by simp⟩
  case false =>
  cases ep
  case true => exact ⟨hfb, [], by simp [mark_cancelled], by simp⟩
  case false =>
  simp only [Bool.false_eq_true, if_false]
  cases er with
  | notReadyCancelled => exact ⟨hfb, [], by simp [mark_cancelled], by simp⟩
  | notReadyTimeout => exact ⟨hfb, [], by simp [mark_failed], by simp⟩
  | ready payload =>
    dsimp only
    rw [hfb]
    split_ifs with hchunk hempty
    · exact ⟨rfl, [], by simp, by simp⟩
    · exact ⟨rfl, [], by simp, by simp⟩
    · cases es with
      | cancelledDuring => exact ⟨rfl, [], by simp [mark_cancelled], by simp⟩
      | transportError e => exact ⟨rfl, [], by simp [mark_failed], by simp⟩
      | ackError m => exact ⟨rfl, [], by simp [mark_failed], by simp⟩
      | accepted =>
        refine ⟨rfl, _, rfl, ?_⟩
        intro p hp
        rw [List.mem_singleton] at hp
        subst hp
        exact build_payload_not_first job _

/-- Helper: the loop started after the first batch only appends payloads
with `reset = false` and no `startPosition`. -/
theorem run_loop_trace_not_first (job : PathSendJob) (cfg : SenderConfig)
    (env : ℕ → IterEnv) :
    ∀ (fuel i : ℕ) (st : RunState), st.first_batch = false →
      ∃ ps, (run_loop job cfg env fuel i st).trace = st.trace ++ ps ∧
        ∀ p ∈ ps, p.reset = false ∧ p.startPosition = none := by
  intro fuel
  induction fuel with
  | zero =>
    intro i st hfb
    dsimp only [run_loop]
    split_ifs
    · exact ⟨[], by simp, by simp⟩
    · exact ⟨[], by simp [mark_complete], by simp⟩
  | succ n ih =>
    intro i st hfb
    dsimp only [run_loop]
    split_ifs with hlt
    · have hstep := run_step_trace_not_first job cfg (env i) st hfb
      rcases hrs : run_step job cfg (env i) st with ⟨st', cont⟩
      rw [hrs] at hstep
      obtain ⟨hfb', ps0, htr0, hall0⟩ := hstep
      cases cont
      · exact ⟨ps0, htr0, hall0⟩
      ·
        obtain ⟨ps1, htr1, hall1⟩ := ih (i + 1) st' hfb'
        refine ⟨ps0 ++ ps1, ?_, ?_⟩
        · rw [htr1, htr0, List.append_assoc]
        · intro p hp
          rcases List.mem_append.mp hp with h | h
          · exact hall0 p h
          · exact hall1 p h
    · exact ⟨[], by simp [mark_complete], by simp⟩

/-- Helper: an iteration at `first_batch = true` either sends nothing
(state flags unchanged) or sends exactly the single-point first payload
and clears the flag. -/
theorem run_step_first (job : PathSendJob) (cfg : SenderConfig) (env : IterEnv)
    (st : RunState) (hsp : job.start_position.isSome = true)
    (hfb : st.first_batch = true) (hlt : st.sent_points < job.points.length) :
    ((run_step job cfg env st).1.trace = st.trace ∧
        (run_step job cfg env st).1.first_batch = true) ∨
      ∃ p0, (run_step job cfg env st).1.trace = st.trace ++ [p0] ∧
        (run_step job cfg env st).1.first_batch = false ∧
        p0.points.length = 1 ∧ p0.reset = job.reset ∧
        p0.startPosition.isSome = job.reset := by
  rcases env with ⟨ec, ep, er, es⟩
  dsimp only [run_step]
  cases ec
  case true => exact Or.inl ⟨rfl, hfb⟩
  case false =>
  cases ep
  case true => exact Or.inl ⟨rfl, hfb⟩
  case false =>
  simp only [Bool.false_eq_true, if_false]
  cases er with
  | notReadyCancelled => exact Or.inl ⟨rfl, hfb⟩
  | notReadyTimeout => exact Or.inl ⟨rfl, hfb⟩
  | ready payload =>
    dsimp only
    rw [hfb]
    have hrem : (0 : ℤ) < (job.points.length : ℤ) - st.sent_points := by
      omega
    rw [determine_chunk_first cfg _ payload hrem]
    have hlen : ((job.points.drop st.sent_points).take
        (min (st.sent_points + (1 : ℤ).toNat) job.points.length -
          st.sent_points)).length = 1 := by
      simp only [List.length_take, List.length_drop, Int.toNat_one]
      omega
    split_ifs with hchunk hempty
    · exact absurd hchunk (by norm_num)
    · rw [List.isEmpty_iff_length_eq_zero, hlen] at hempty
      exact absurd hempty one_ne_zero
    · have hb := build_payload_first job ((job.points.drop st.sent_points).take
        (min (st.sent_points + (1 : ℤ).toNat) job.points.length -
          st.sent_points)) hsp
      cases es with
      | cancelledDuring => exact Or.inl ⟨rfl, rfl⟩
      | transportError e => exact Or.inl ⟨rfl, rfl⟩
      | ackError m => exact Or.inl ⟨rfl, rfl⟩
      | accepted =>
        refine Or.inr ⟨build_payload job _ true, rfl, rfl, ?_, hb.1, hb.2.1⟩
        rw [hb.2.2, hlen]

/-- Helper: the loop started at `first_batch = true` with an empty trace
produces either no payload at all, or a single-point first payload
followed only by `reset = false`, no-`startPosition` payloads. -/
theorem run_loop_trace_first (job : PathSendJob) (cfg : SenderConfig)
    (env : ℕ → IterEnv) (hsp : job.start_position.isSome = true) :
    ∀ (fuel i : ℕ) (st : RunState), st.first_batch = true → st.trace = [] →
      (run_loop job cfg env fuel i st).trace = [] ∨
      ∃ p0 ps, (run_loop job cfg env fuel i st).trace = p0 :: ps ∧
        p0.points.length = 1 ∧ p0.reset = job.reset ∧
        p0.startPosition.isSome = job.reset ∧
        ∀ p ∈ ps, p.reset = false ∧ p.startPosition = none := by
  intro fuel
  induction fuel with
  | zero =>
    intro i st hfb htr
    dsimp only [run_loop]
    split_ifs
    · exact Or.inl htr
    · exact Or.inl htr
  | succ n ih =>
    intro i st hfb htr
    dsimp only [run_loop]
    split_ifs with hlt
    · have hstep := run_step_first job cfg (env i) st hsp hfb hlt
      rcases hrs : run_step job cfg (env i) st with ⟨st', cont⟩
      rw [hrs] at hstep
      cases cont
      · rcases hstep with ⟨htr', _⟩ | ⟨p0, htr', _, hlen, hreset, hstart⟩
        · exact Or.inl (htr'.trans htr)
        · refine Or.inr ⟨p0, [], ?_, hlen, hreset, hstart, by simp⟩
          rw [htr', htr]
          rfl
      · rcases hstep with ⟨htr', hfb'⟩ | ⟨p0, htr', hfb', hlen, hreset, hstart⟩
        · exact ih (i + 1) st' hfb' (htr'.trans htr)
        · obtain ⟨ps, hps, hall⟩ := run_loop_trace_not_first job cfg env n (i + 1) st' hfb'
          refine Or.inr ⟨p0, ps, ?_, hlen, hreset, hstart, hall⟩
          rw [hps, htr', htr]
          rfl
    · exact Or.inl htr

/-- C2: any job built by `start_job` has a present start position; the
first batch sent in a job contains exactly one point, carries
`reset = job.reset`, and carries `startPosition` exactly when `reset` is
true; every batch after the first is sent with `reset = false` and never
carries `startPosition`. -/
theorem first_batch_discipline :
    (∀ (cfg : SenderConfig) (points : List Point) (sp cs : Option Point)
        (speed : ℤ) (reset : Bool) (job : PathSendJob),
        mk_job cfg points sp cs speed reset = .ok job →
        job.start_position.isSome = true) ∧
    (∀ (job : PathSendJob) (cfg : SenderConfig) (env : ℕ → IterEnv) (fuel : ℕ),
        job.start_position.isSome = true →
        (run_job job cfg env fuel).trace = [] ∨
        ∃ p0 ps, (run_job job cfg env fuel).trace = p0 :: ps ∧
          p0.points.length = 1 ∧ p0.reset = job.reset ∧
          p0.startPosition.isSome = job.reset ∧
          ∀ p ∈ ps, p.reset = false ∧ p.startPosition = none) := by
  constructor
  · intro cfg points sp cs speed reset job h
    by_cases hpts : points.isEmpty = true
    · simp [mk_job, hpts] at h
    · rw [Bool.not_eq_true] at hpts
      rcases sp with _ | p
      · rcases cs with _ | c
        · simp [mk_job, hpts] at h
        · simp only [mk_job, hpts, Bool.false_eq_true, if_false,
            Except.ok.injEq] at h
          rw [← h]
          rfl
      · simp only [mk_job, hpts, Bool.false_eq_true, if_false,
          Except.ok.injEq] at h
        rw [← h]
        rfl
  · intro job cfg env fuel hsp
    exact run_loop_trace_first job cfg env hsp fuel 0
      (mark_running job (initRunState job)) rfl rfl

/-- C2 witness: the S1 job (with `reset = true`) satisfies the first-batch
discipline. -/
theorem first_batch_discipline_witness :
    (run_job s1_job defaultConfig s1_env 10).trace = [] ∨
    ∃ p0 ps, (run_job s1_job defaultConfig s1_env 10).trace = p0 :: ps ∧
      p0.points.length = 1 ∧ p0.reset = s1_job.reset ∧
      p0.startPosition.isSome = s1_job.reset ∧
      ∀ p ∈ ps, p.reset = false ∧ p.startPosition = none :=
  first_batch_discipline.2 s1_job defaultConfig s1_env 10 rfl

/-- C5 counterexample: an ordered triple `(100, 100, True)` is rejected
with the dictionaries-only error (the spec claims triples and pairs are
accepted), while a dict with a non-finite `x` is accepted (the spec
claims non-finite values fail). -/
theorem normalize_point_counterexample :
    normalize_point (.seq [.num (.finite 100), .num (.finite 100), .boolean true]) =
      .error "points must be dictionaries with x, y, penDown keys" ∧
    normalize_point (.dict [("x", .num .inf), ("y", .num (.finite 100))]) =
      .ok ⟨.inf, .finite 100, false⟩ :=
  ⟨rfl, rfl⟩

/-- C5 (amended): `_normalize_point` accepts exactly the dicts whose
`x` and `y` entries are present and float-convertible — ordered triples
and pairs are rejected, and non-finite coordinate values are accepted,
not rejected; any failing element makes the eager normalization of
`start_job` fail, so no job is constructed. -/
theorem normalize_point_characterization :
    (∀ v : PyValue, (∃ p, normalize_point v = .ok p) ↔
      ∃ es xv yv, v = .dict es ∧ dictGet es "x" = some xv ∧
        dictGet es "y" = some yv ∧ (pyFloatConv xv).isSome = true ∧
        (pyFloatConv yv).isSome = true) ∧
    (∀ (pts : List PyValue) (v : PyValue) (e : String), v ∈ pts →
      normalize_point v = .error e →
      ∃ e2, normalize_points pts = .error e2) := by
  constructor
  · intro v
    constructor
    · rintro ⟨p, hp⟩
      cases v with
      | dict es =>
        rcases hx : dictGet es "x" with _ | xv
        · simp [normalize_point, hx] at hp
        · rcases hy : dictGet es "y" with _ | yv
          · simp [normalize_point, hx, hy] at hp
          · rcases hfx : pyFloatConv xv with _ | fx
            · simp [normalize_point, hx, hy, hfx] at hp
            · rcases hfy : pyFloatConv yv with _ | fy
              · simp [normalize_point, hx, hy, hfx, hfy] at hp
              · exact ⟨es, xv, yv, rfl, hx, hy, by simp [hfx], by simp [hfy]⟩
      | seq its => simp [normalize_point] at hp
      | num q => simp [normalize_point] at hp
      | boolean b => simp [normalize_point] at hp
      | pynone => simp [normalize_point] at hp
    · rintro ⟨es, xv, yv, rfl, hx, hy, hfx, hfy⟩
      obtain ⟨fx, hfx'⟩ := Option.isSome_iff_exists.mp hfx
      obtain ⟨fy, hfy'⟩ := Option.isSome_iff_exists.mp hfy
      refine ⟨{ x := fx, y := fy,
                penDown := match dictGet es "penDown" with
                           | some v => pyTruthy v
                           | none => false }, ?_⟩
      simp [normalize_point, hx, hy, hfx', hfy']
  · intro pts
    induction pts with
    | nil =>
      intro v e hv _
      simp at hv
    | cons a rest ih =>
      intro v e hv herr
      cases hna : normalize_point a with
      | error ea => exact ⟨ea, by simp [normalize_points, hna]⟩
      | ok pa =>
        rcases List.mem_cons.mp hv with rfl | hv'
        · rw [herr] at hna
          cases hna
        · obtain ⟨e2, he2⟩ := ih v e hv' herr
          exact ⟨e2, by simp [normalize_points, hna, he2]⟩

/-- C5 witness: a plain `{x, y}` dict normalizes, and a `None` element
makes the whole normalization fail. -/
theorem normalize_point_characterization_witness :
    (∃ p, normalize_point (.dict [("x", .num (.finite 1)), ("y", .num (.finite 2))]) =
      .ok p) ∧
    ∃ e2, normalize_points [.pynone] = .error e2 :=
  ⟨(normalize_point_characterization.1 _).mpr
      ⟨_, _, _, rfl, rfl, rfl, rfl, rfl⟩,
    normalize_point_characterization.2 [.pynone] .pynone
      "points must be dictionaries with x, y, penDown keys"
      (List.mem_singleton.mpr rfl) rfl⟩

/-- C8 counterexample: with the current job in status `cancelling` (not
in `{pending, running}`), `cancel_current` is not a no-op: it sets the
cancel flag and issues a controller cancel request; and with a terminal
current job, `cancel_current` clears the retained last job. -/
theorem cancel_not_noop_counterexample :
    (c8_cancelling_state.job.map (fun j => j.status) = some .cancelling ∧
      (cancel_current c8_cancelling_state).2 = some "http://controller/api/cancel" ∧
      (cancel_current c8_cancelling_state).1.job.map (fun j => j.cancel_requested) =
        some true ∧
      (cancel_current c8_cancelling_state).1 ≠ c8_cancelling_state) ∧
    (c8_done_state.job.map (fun j => j.status) = some .completed ∧
      c8_done_state.last_job ≠ none ∧
      (cancel_current c8_done_state).1.last_job = none) := by
  decide

/-- C8 (amended): `pause` and `resume` are no-ops whenever the current
job's status is not in `{pending, running}`; `cancel` leaves the current
job unchanged and issues no controller request only when the status is
also not `cancelling`, and even then it clears the retained last job
when that job is terminal; when the status is `cancelling`, `cancel`
re-arms the cancel flag and re-issues the controller cancel request. -/
theorem pause_resume_cancel_scope :
    (∀ (s : CoordState) (j : JobCtl), s.job = some j →
      j.status ∉ [JobStatus.pending, JobStatus.running] →
      pause_current s = s ∧ resume_current s = s) ∧
    (∀ (s : CoordState) (j : JobCtl), s.job = some j →
      j.status ∉ ACTIVE_JOB_STATUSES →
      (cancel_current s).1.job = s.job ∧ (cancel_current s).2 = none ∧
        (cancel_current s).1.last_job = clear_final_last_job s.last_job) ∧
    (∀ (s : CoordState) (j : JobCtl), s.job = some j →
      j.status = .cancelling →
      (cancel_current s).2 = j.cancel_url ∧
        (cancel_current s).1.job =
          some { j with cancel_requested := true, status := .cancelling }) := by
  refine ⟨?_, ?_, ?_⟩
  · intro s j hj hst
    constructor
    · simp [pause_current, hj, hst]
    · simp [resume_current, hj, hst]
  · intro s j hj hst
    refine ⟨?_, ?_, ?_⟩ <;> simp [cancel_current, hj, hst]
  · intro s j hj hst
    constructor
    · simp [cancel_current, hj, hst, ACTIVE_JOB_STATUSES]
    · simp [cancel_current, hj, hst, ACTIVE_JOB_STATUSES, request_cancel]

/-- C8 witness: with a terminal current job, pause and resume leave the
state unchanged and cancel issues no request. -/
theorem pause_resume_cancel_scope_witness :
    pause_current c8_done_state = c8_done_state ∧
    resume_current c8_done_state = c8_done_state ∧
    (cancel_current c8_done_state).2 = none :=
  ⟨(pause_resume_cancel_scope.1 c8_done_state c8_done_job rfl (by decide)).1,
   (pause_resume_cancel_scope.1 c8_done_state c8_done_job rfl (by decide)).2,
   (pause_resume_cancel_scope.2.1 c8_done_state c8_done_job rfl (by decide)).2.1⟩

end PolarGraph
